import Mathlib

/-!
Verification development for the library_ETL repository.

The definitions below are shallow embeddings of the Python sources:

* `src/backend/app/models/models.py`      — SQLAlchemy table rows (`Book`, `Transaction`)
* `src/backend/app/schemas/schemas.py`    — pydantic request validation
* `src/backend/app/routers/transactions.py` — `create_transaction`
* `src/backend/app/routers/books.py`      — `update_book`
* `src/etl/csv_loader/transform.py`, `validation.py`, `load.py`, `main.py`
                                          — the `run_pipeline` ETL
* `src/etl/csv_loader/loader.py`          — the session-based loader (dimension caches)
* `src/etl/csv_loader/load_books.py`      — the per-row loader with the id allocator

Machine integers do not overflow in any of the modelled code paths
(ids and counters are unbounded Python ints), so `Nat` is used directly.
Timestamps are modelled as `Nat` where a claim depends on them and
omitted otherwise.
-/

namespace LibraryETL

/-! ## Backend entity store (models.py)

`Book` as declared in `src/backend/app/models/models.py`.  The columns are
`book_id, name, category_id, storage_location_id, status, created_at,
updated_at`; the `status` column carries a CHECK constraint restricting it to
`Available / On Loan / Lost / Archived` and defaults to `"Available"`.
Note the model has no `book_category` / `book_category_label` columns, even
though the pydantic schemas mention such fields. -/
structure MBook where
  book_id : String
  name : String
  category_id : Option Nat
  storage_location_id : Option Nat
  status : String
  created_at : Nat
  updated_at : Nat
deriving Repr, DecidableEq

/-- Transaction row per `models.py`: append-only log of borrow/return records. -/
structure MTxn where
  transaction_id : Nat
  book_id : String
  teacher_id : Nat
  action : String
  transaction_date : Nat
  notes : Option String
deriving Repr, DecidableEq

/-- The backend database state: the tables touched by the transactions and
books routers.  `next_txn_id` models the `transactions.transaction_id`
serial sequence. -/
structure ApiDB where
  books : List MBook
  transactions : List MTxn
  next_txn_id : Nat
deriving Repr, DecidableEq

/-! ## Request validation (schemas.py) -/

/-- `TransactionCreate` from `schemas.py` after pydantic validation:
`action` is declared `Literal["borrow", "return"]`, so a request whose action
is any other string is rejected with 422 before the router body runs. -/
structure TransactionCreate where
  book_id : String
  teacher_id : Nat
  action : String
  transaction_date : Nat
  notes : Option String
deriving Repr, DecidableEq

/-- Pydantic gate for `TransactionCreate.action`: only the two English
literals pass (schemas.py line 140). -/
def parseTransactionAction (raw : String) : Option String :=
  if raw = "borrow" ∨ raw = "return" then some raw else none

/-! ## create_transaction (transactions.py lines 99-155)

The handler body, translated statement by statement:

1. look the book up by id; 404 if absent;
2. compare `transaction_data.action` with the *Chinese* literals
   `"借閱"` (borrow) and `"歸還"` (return); only those branches assign the
   local `new_status` (and only after checking the status against the
   Chinese statuses `"可借閱"` / `"借閱中"`);
3. `db.add(new_transaction)`, then `book.status = new_status` — when no
   branch assigned `new_status`, this line raises `UnboundLocalError`
   before `db.commit()` is reached;
4. `db.commit()` persists both the staged transaction row and the status.

`ReqResult` is the observable outcome of one request. -/
inductive ReqResult where
  | ok (t : MTxn)
  | httpError (code : Nat) (detail : String)
  | pythonError (msg : String)
deriving Repr, DecidableEq

/-- Decide whether a `ReqResult` is the success case. -/
def ReqResult.isOk : ReqResult → Bool
  | .ok _ => true
  | _ => false

/-- Outcome of the borrow/return action dispatch in the handler
(transactions.py lines 129-143).  `none` in the second component means the
Python local `new_status` was never assigned. -/
def actionDispatch (action bookStatus : String) : Option ReqResult × Option String :=
  if action = "借閱" then
    if bookStatus ≠ "可借閱" then
      (some (.httpError 400 ("Book is currently " ++ bookStatus ++ " and cannot be borrowed")), none)
    else (none, some "借閱中")
  else if action = "歸還" then
    if bookStatus ≠ "借閱中" then
      (some (.httpError 400 ("Book is currently " ++ bookStatus ++ " and cannot be returned")), none)
    else (none, some "可借閱")
  else (none, none)

/-- Modelled from the spec: `app/database.py` (the `get_db` dependency) is not
under `src/`; per spec §4.1 "partial writes are never visible outside the
owning transaction", so when the handler raises before `db.commit()` the
session's staged `db.add` is discarded and the committed store is unchanged.
`create_transaction` returns the request outcome together with the committed
database state. -/
def create_transaction (db : ApiDB) (t : TransactionCreate) : ReqResult × ApiDB :=
  match db.books.find? (fun b => b.book_id = t.book_id) with
  | none => (.httpError 404 ("Book with ID " ++ t.book_id ++ " not found"), db)
  | some book =>
    match actionDispatch t.action book.status with
    | (some err, _) => (err, db)
    | (none, none) =>
      -- db.add ran, but `book.status = new_status` raises before commit
      (.pythonError "UnboundLocalError: local variable new_status referenced before assignment", db)
    | (none, some newStatus) =>
      let txn : MTxn :=
        { transaction_id := db.next_txn_id, book_id := t.book_id,
          teacher_id := t.teacher_id, action := t.action,
          transaction_date := t.transaction_date, notes := t.notes }
      let books' := db.books.map (fun b =>
        if b.book_id = t.book_id then { b with status := newStatus } else b)
      (.ok txn,
       { books := books', transactions := db.transactions ++ [txn],
         next_txn_id := db.next_txn_id + 1 })

/-- A demo store holding one available book, as created by the books router
(default status `"Available"` per models.py line 74 and its CHECK
constraint). -/
def demoAvailableDB : ApiDB :=
  { books := [{ book_id := "B1", name := "Demo", category_id := none,
                storage_location_id := none, status := "Available",
                created_at := 0, updated_at := 0 }],
    transactions := [], next_txn_id := 1 }

/-- A schema-valid borrow request for the demo book. -/
def demoBorrow : TransactionCreate :=
  { book_id := "B1", teacher_id := 7, action := "borrow",
    transaction_date := 20260101, notes := none }

/-- A schema-valid return request for the demo book. -/
def demoReturn : TransactionCreate :=
  { book_id := "B1", teacher_id := 7, action := "return",
    transaction_date := 20260102, notes := none }

/-- A demo store holding one on-loan book. -/
def demoOnLoanDB : ApiDB :=
  { books := [{ book_id := "B1", name := "Demo", category_id := none,
                storage_location_id := none, status := "On Loan",
                created_at := 0, updated_at := 0 }],
    transactions := [], next_txn_id := 1 }

/-- C1: submitting `borrow` on a book whose status is `"Available"` — the
claim says this succeeds, flips the status to `On Loan` and appends one
borrow row.  The code instead raises `UnboundLocalError`: the pydantic
schema admits only `"borrow"`, which matches neither Chinese branch of the
handler, so `new_status` is never assigned; nothing is committed.  The
theorem evaluates the handler at this failing input: the action passes the
schema gate, the outcome is the Python error, no Transaction row is created
and the status is not updated. -/
theorem claim_c1_borrow_on_available_crashes :
    parseTransactionAction "borrow" = some "borrow" ∧
    (create_transaction demoAvailableDB demoBorrow).1 =
      .pythonError "UnboundLocalError: local variable new_status referenced before assignment" ∧
    (create_transaction demoAvailableDB demoBorrow).2 = demoAvailableDB := by
  refine ⟨rfl, rfl, rfl⟩

/-- C3: for an existing book with status `"On Loan"` and a schema-valid
`borrow` request, the claim says the call fails with a precondition error
that names the current status, leaving the store unchanged.  The code's
status-naming 400 branches are dead (they are guarded by the Chinese action
literals, which the schema never lets through), so the request dies with an
`UnboundLocalError` whose message names no status; the committed store is
unchanged only because the crash happens before `db.commit()`. -/
theorem claim_c3_error_does_not_name_status :
    (create_transaction demoOnLoanDB demoBorrow).1 =
      .pythonError "UnboundLocalError: local variable new_status referenced before assignment" ∧
    (create_transaction demoOnLoanDB demoBorrow).2 = demoOnLoanDB ∧
    (create_transaction demoOnLoanDB demoBorrow).1 ≠
      .httpError 400 "Book is currently On Loan and cannot be borrowed" := by
  refine ⟨rfl, rfl, by decide⟩

/-- Whatever the request, a non-`ok` outcome leaves the committed store
unchanged (the atomicity half of C3 does hold, given the spec-modelled
session rollback). -/
theorem create_transaction_error_keeps_store (db : ApiDB) (t : TransactionCreate)
    (h : (create_transaction db t).1.isOk = false) :
    (create_transaction db t).2 = db := by
  unfold create_transaction at *
  cases hf : db.books.find? (fun b => b.book_id = t.book_id) with
  | none => simp [hf]
  | some book =>
    rcases hd : actionDispatch t.action book.status with ⟨err?, ns?⟩
    cases err? with
    | some e => simp [hf, hd]
    | none =>
      cases ns? with
      | none => simp [hf, hd]
      | some ns => simp [hf, hd, ReqResult.isOk] at h

/-- Witness for `create_transaction_error_keeps_store` at a concrete input. -/
theorem create_transaction_error_keeps_store_witness :
    (create_transaction demoOnLoanDB demoBorrow).2 = demoOnLoanDB :=
  create_transaction_error_keeps_store demoOnLoanDB demoBorrow (by decide)

/-- C4: the claim says the sequence borrow, return, borrow, return from
status `"Available"` succeeds four times and ends `"Available"`, and a
leading return fails leaving the status unchanged.  In the code every one of
the four submissions raises `UnboundLocalError` (none succeeds), each
leaving the store untouched; the leading return also dies with the crash
rather than a precondition 400.  The theorem evaluates the whole sequence. -/
theorem claim_c4_alternation_never_succeeds :
    (create_transaction demoAvailableDB demoBorrow).1.isOk = false ∧
    ((create_transaction demoAvailableDB demoBorrow).2 = demoAvailableDB ∧
     (create_transaction demoAvailableDB demoReturn).1.isOk = false ∧
     (create_transaction demoAvailableDB demoReturn).2 = demoAvailableDB) ∧
    (create_transaction demoAvailableDB demoReturn).1 =
      .pythonError "UnboundLocalError: local variable new_status referenced before assignment" := by
  refine ⟨by decide, ⟨rfl, by decide, rfl⟩, rfl⟩

/-! ## update_book (books.py lines 149-187) and BookUpdate (schemas.py lines 106-112) -/

/-- The raw body of a PUT /books request before pydantic validation.  A
`none` field is absent from the payload (pydantic's `exclude_unset`
distinguishes absent fields; explicitly-null payload fields are not used by
the frontend and are not modelled). -/
structure BookUpdateRaw where
  name : Option String
  book_category : Option String
  book_category_label : Option String
  storage_location_id : Option (Option Nat)
  status : Option String
deriving Repr, DecidableEq

/-- The status values admitted by `BookUpdate.status`'s
`Literal["Available", "On Loan", "Lost", "Archived"]` annotation. -/
def allowedBookStatuses : List String := ["Available", "On Loan", "Lost", "Archived"]

/-- Pydantic validation of `BookUpdate` (schemas.py lines 106-112): each set
string field must satisfy its length bounds, and a set `status` must be one
of the four literals; otherwise the request is rejected with 422 before the
router body runs. -/
def parseBookUpdate (raw : BookUpdateRaw) : Option BookUpdateRaw :=
  let lenOk : Option String → Nat → Bool := fun f hi =>
    match f with
    | none => true
    | some s => 1 ≤ s.length && s.length ≤ hi
  let statusOk : Bool :=
    match raw.status with
    | none => true
    | some s => decide (s ∈ allowedBookStatuses)
  if lenOk raw.name 255 && lenOk raw.book_category 50 &&
     lenOk raw.book_category_label 50 && statusOk then some raw else none

/-- True when applying the payload changes the value of at least one actual
column of the `books` table; only then does SQLAlchemy emit an UPDATE, which
fires the `updated_at` `onupdate` refresh.  The payload's `book_category`
and `book_category_label` entries are *not* columns of `models.Book`
(the model has `category_id` instead): `setattr` on them stores a plain
instance attribute that is never persisted. -/
def bookColumnsChanged (b : MBook) (p : BookUpdateRaw) : Bool :=
  (match p.name with | some v => v ≠ b.name | none => false) ||
  (match p.storage_location_id with | some v => v ≠ b.storage_location_id | none => false) ||
  (match p.status with | some v => v ≠ b.status | none => false)

/-- The per-row effect of `update_book`'s `setattr` loop followed by
`db.commit()`: each set column field is overwritten, `updated_at` is
refreshed to `now` when a column value actually changed, and every other
column — `book_id`, `created_at`, `category_id` — is untouched. -/
def applyBookUpdate (now : Nat) (b : MBook) (p : BookUpdateRaw) : MBook :=
  let b' : MBook :=
    { b with
      name := p.name.getD b.name,
      storage_location_id :=
        match p.storage_location_id with
        | some v => v
        | none => b.storage_location_id,
      status := p.status.getD b.status }
  if bookColumnsChanged b p then { b' with updated_at := now } else b'

/-- Result of a PUT /books/\x7bbook_id\x7d request. -/
inductive UpdResult where
  | ok (b : MBook)
  | httpError (code : Nat) (detail : String)
deriving Repr, DecidableEq

/-- `update_book` (books.py lines 149-187): look the book up by id, 404 when
absent, otherwise apply the set payload fields and commit. -/
def update_book (db : ApiDB) (now : Nat) (bid : String) (p : BookUpdateRaw) :
    UpdResult × ApiDB :=
  match db.books.find? (fun b => b.book_id = bid) with
  | none => (.httpError 404 ("Book with ID " ++ bid ++ " not found"), db)
  | some book =>
    (.ok (applyBookUpdate now book p),
     { db with books := db.books.map (fun x =>
         if x.book_id = bid then applyBookUpdate now x p else x) })

/-- A payload setting only `name`. -/
def demoNameUpdate : BookUpdateRaw :=
  { name := some "NewName", book_category := none, book_category_label := none,
    storage_location_id := none, status := none }

/-- C10 counterexample: updating only `name` on the demo book also changes
`updated_at` (the column's `onupdate=func.now()` refresh), so the claim that
*all* fields other than the explicitly set ones are left unchanged is false
at this concrete input. -/
theorem claim_c10_counterexample :
    (update_book demoAvailableDB 9 "B1" demoNameUpdate).2.books =
      [{ book_id := "B1", name := "NewName", category_id := none,
         storage_location_id := none, status := "Available",
         created_at := 0, updated_at := 9 }] ∧
    (update_book demoAvailableDB 9 "B1" demoNameUpdate).2.books.map (fun b => b.updated_at) ≠
      demoAvailableDB.books.map (fun b => b.updated_at) := by
  refine ⟨by decide, by decide⟩

/-- C10 (amended): `update_book` modifies on the targeted row only the
column-backed fields explicitly set in the payload, plus `updated_at`
(refreshed automatically when a column value changes); `book_id`,
`created_at` and `category_id` are preserved, unset fields are preserved,
no other row and no other table is touched, a missing book leaves the store
unchanged, and a status outside the four literals is rejected by pydantic
before any write. -/
theorem claim_c10_update_frame :
    (∀ (now : Nat) (b : MBook) (p : BookUpdateRaw),
      (applyBookUpdate now b p).book_id = b.book_id ∧
      (applyBookUpdate now b p).created_at = b.created_at ∧
      (applyBookUpdate now b p).category_id = b.category_id) ∧
    (∀ (now : Nat) (b : MBook) (p : BookUpdateRaw),
      (p.name = none → (applyBookUpdate now b p).name = b.name) ∧
      (p.status = none → (applyBookUpdate now b p).status = b.status) ∧
      (p.storage_location_id = none →
        (applyBookUpdate now b p).storage_location_id = b.storage_location_id)) ∧
    (∀ (db : ApiDB) (now : Nat) (bid : String) (p : BookUpdateRaw),
      (update_book db now bid p).2.transactions = db.transactions ∧
      (update_book db now bid p).2.next_txn_id = db.next_txn_id) ∧
    (∀ (db : ApiDB) (now : Nat) (bid : String) (p : BookUpdateRaw),
      ∀ x ∈ db.books, x.book_id ≠ bid → x ∈ (update_book db now bid p).2.books) ∧
    (∀ (db : ApiDB) (now : Nat) (bid : String) (p : BookUpdateRaw),
      db.books.find? (fun b => b.book_id = bid) = none →
      (update_book db now bid p).2 = db) ∧
    (∀ (raw : BookUpdateRaw) (s : String),
      raw.status = some s → s ∉ allowedBookStatuses →
      parseBookUpdate raw = none) := by
  refine ⟨?_, ?_, ?_, ?_, ?_, ?_⟩
  · intro now b p
    unfold applyBookUpdate
    by_cases h : bookColumnsChanged b p <;> simp [h]
  · intro now b p
    refine ⟨?_, ?_, ?_⟩ <;> intro h <;> unfold applyBookUpdate <;>
      by_cases hc : bookColumnsChanged b p <;> simp [h, hc]
  · intro db now bid p
    unfold update_book
    cases hf : db.books.find? (fun b => b.book_id = bid) <;> simp [hf]
  · intro db now bid p x hx hne
    unfold update_book
    cases hf : db.books.find? (fun b => b.book_id = bid) with
    | none => simpa using hx
    | some book =>
      simp only []
      refine List.mem_map.mpr ⟨x, hx, ?_⟩
      simp [hne]
  · intro db now bid p hf
    unfold update_book
    simp [hf]
  · intro raw s hs hbad
    unfold parseBookUpdate
    simp [hs, hbad]

/-- The single book row of `demoAvailableDB`. -/
def demoBookRow : MBook :=
  { book_id := "B1", name := "Demo", category_id := none,
    storage_location_id := none, status := "Available",
    created_at := 0, updated_at := 0 }

/-- A payload setting only a status outside the four allowed literals. -/
def demoBadStatusUpdate : BookUpdateRaw :=
  { name := none, book_category := none, book_category_label := none,
    storage_location_id := none, status := some "Borrowed" }

/-- Witness for `claim_c10_update_frame` at concrete inputs: updating the
demo store preserves `book_id`/`created_at`, leaves the transactions table
alone, and a payload carrying the illegal status `"Borrowed"` is rejected. -/
theorem claim_c10_update_frame_witness :
    (applyBookUpdate 9 demoBookRow demoNameUpdate).book_id = "B1" ∧
    (update_book demoAvailableDB 9 "B1" demoNameUpdate).2.transactions = [] ∧
    parseBookUpdate demoBadStatusUpdate = none := by
  refine ⟨(claim_c10_update_frame.1 9 _ demoNameUpdate).1, ?_, ?_⟩
  · exact (claim_c10_update_frame.2.2.1 demoAvailableDB 9 "B1" demoNameUpdate).1
  · exact claim_c10_update_frame.2.2.2.2.2 demoBadStatusUpdate "Borrowed" rfl (by decide)

/-! ## The run_pipeline ETL (main.py, transform.py, validation.py, load.py)

`transform_data` (transform.py lines 11-53) splits the raw frame into a
books table and a locations table.  Its `generate_book_id` draws a truncated
`uuid.uuid4()` for *every* row on *every* run; the uuid generator is modelled
by a fresh-supply counter, which captures exactly the property the code
relies on (each call yields an id distinct from every previously generated
one) — no input column ever feeds the id. -/

/-- A raw CSV row of the `run_pipeline` ETL (`book.csv` columns `category`,
`category_label`, `book_name`, `location`); `none` is a pandas NaN cell. -/
structure RawRow where
  category : Option String
  category_label : Option String
  book_name : Option String
  location : Option String
deriving Repr, DecidableEq

/-- A transformed book row: renamed columns, a generated `book_id`, the
constant status `"Available"`, and the original `location` text kept for a
later lookup (transform.py lines 28-50). -/
structure TBook where
  book_id : String
  book_category : Option String
  book_category_label : Option String
  name : Option String
  location : Option String
  status : String
deriving Repr, DecidableEq

/-- One draw of the fresh-id supply standing in for
`str(uuid.uuid4()).replace('-', '')[:32]`. -/
def generate_book_id (u : Nat) : String := "uuid-" ++ toString u

/-- `transform_data` (transform.py): returns the books table and the
deduplicated locations column, together with the advanced id supply. -/
def transform_data (raw : List RawRow) (u : Nat) :
    (List TBook × List (Option String)) × Nat :=
  let locations := (raw.map (fun r => r.location)).eraseDups
  let books := raw.enum.map (fun p =>
    { book_id := generate_book_id (u + p.1),
      book_category := p.2.category,
      book_category_label := p.2.category_label,
      name := p.2.book_name,
      location := p.2.location,
      status := "Available" : TBook })
  ((books, locations), u + raw.length)

/-- `validate_data` (validation.py lines 10-59) walks
`critical_cols = [book_category, book_category_label, name, location_name]`
in order; for each it first requires the *column to exist* and then its
values to be non-null, raising a `ValueError` on the first violation.  The
books frame `transform_data` produces carries the first three columns (so
for them only the null check can fire) but has no `location_name` column at
all — it kept `location` — so once the first three pass, the
`expect_column_to_exist("location_name")` check raises unconditionally:
`validate_data` can never return `.ok` on a transformed frame (the later
`book_id`-uniqueness expectation is unreachable).  In the source the
situation is even worse: main.py hands `validate_data` the whole
`(books_df, locations_df)` *tuple*, which `great_expectations.from_pandas`
cannot consume, so the run aborts at this step under every reading. -/
def validate_data (books : List TBook) : Except String Unit :=
  if books.any (fun b => b.book_category.isNone) then
    .error "Column book_category has null values"
  else if books.any (fun b => b.book_category_label.isNone) then
    .error "Column book_category_label has null values"
  else if books.any (fun b => b.name.isNone) then
    .error "Column name has null values"
  else .error "Column location_name missing"

/-- A row of the `books` table per its actual schema (models.py lines
66-88, replicated in loader.py): `book_id`, `name`, `category_id`,
`storage_location_id`, `status` — there are *no* `book_category` /
`book_category_label` columns; timestamps are store-filled and carry no
claim here. -/
structure EBook where
  book_id : String
  name : String
  category_id : Option Nat
  storage_location_id : Option Nat
  status : String
deriving Repr, DecidableEq

/-- The ETL-side store: the `locations` and `books` tables, the locations
serial sequence, and whether the `books` table exists at all (load.py lines
102-106 raise `NoSuchTableError` when it does not). -/
structure EtlStore where
  locations : List (Nat × String)
  next_loc_id : Nat
  books : List EBook
  books_table : Bool
deriving Repr, DecidableEq

/-- `load_locations` (load.py lines 22-61): one `engine.begin()` transaction
that reads the existing location names and inserts only the missing ones.
Python materialises the missing names through a set difference whose
iteration order is unspecified; the model keeps first-occurrence order,
which no claim depends on. -/
def load_locations (st : EtlStore) (locCol : List (Option String)) : EtlStore :=
  let uniq := (locCol.eraseDups.filterMap id).filter (fun l => l ≠ "")
  let existing := st.locations.map (fun p => p.2)
  let newLocs := uniq.filter (fun l => ¬ existing.contains l)
  { st with
    locations := st.locations ++ newLocs.enum.map (fun p => (st.next_loc_id + p.1, p.2)),
    next_loc_id := st.next_loc_id + newLocs.length }

/-- `load_books` (load.py lines 62-125): one `engine.begin()` transaction
of its own.  The `'location_name' in df.columns` test fails (the frame has
`location`), so the location-mapping branch only sets a frame column and
never touches the store.  An empty frame returns before the table is
reflected; a missing `books` table raises `NoSuchTableError`.  For any
non-empty batch the statement itself fails: the prepared records and the
`ON CONFLICT (book_id) DO UPDATE` SET clause (lines 91-94 and 112-121)
name `book_category` / `book_category_label`, columns the reflected
`books` table (models.py lines 66-88) does not have, so SQLAlchemy rejects
the insert ("Unconsumed column names") before anything is written.  The
`engine.begin()` block rolls back on the error, hence this phase never
modifies the store. -/
def load_books (st : EtlStore) (rows : List TBook) : Except String EtlStore :=
  if rows = [] then .ok st
  else if st.books_table then
    .error "Unconsumed column names: book_category, book_category_label"
  else .error "Table books does not exist in the database"

/-- `run_pipeline` (main.py lines 24-44): extract → transform → validate →
load locations → load books.  The source passes `transform_data`'s
`(books_df, locations_df)` *tuple* itself to `validate_data`,
`load_locations` and `load_books`, none of which can consume it; the model
adopts the most charitable well-typed reading — each table threaded to the
consumer whose columns come closest — and the run *still* aborts inside
`validate_data` on every input (see `validate_data_never_ok`), so the load
phases below are unreachable, exactly as in the source.  The result is
(error message if the run aborted, committed store, advanced id supply);
a validation error precedes both loads, leaving the store untouched. -/
def run_pipeline (st : EtlStore) (u : Nat) (raw : List RawRow) :
    Option String × EtlStore × Nat :=
  let t := transform_data raw u
  match validate_data t.1.1 with
  | .error e => (some e, st, t.2)
  | .ok _ =>
    let st1 := load_locations st t.1.2
    match load_books st1 t.1.1 with
    | .error e => (some e, st1, t.2)
    | .ok st2 => (none, st2, t.2)

/-- An empty ETL store whose `books` table exists. -/
def etlEmptyStore : EtlStore :=
  { locations := [], next_loc_id := 1, books := [], books_table := true }

/-- The spec §8 example row: external id "A-001", category Fiction,
location ShelfA, name Book1.  Note the CSV schema consumed by the pipeline
has no id column at all: the external id cannot even be supplied. -/
def etlDemoRow : RawRow :=
  { category := some "Fiction", category_label := some "A-001",
    book_name := some "Book1", location := some "ShelfA" }

/-- First pipeline run on the demo row. -/
def etlRun1 : Option String × EtlStore × Nat :=
  run_pipeline etlEmptyStore 0 [etlDemoRow]

/-- Second pipeline run on the same row set, from the state the first run
left behind. -/
def etlRun2 : Option String × EtlStore × Nat :=
  run_pipeline etlRun1.2.1 etlRun1.2.2 [etlDemoRow]

/-- C2: the claim promises that after loading the row set (twice) exactly
one Book row exists per external id, with the second run reporting 0
inserted and only updates.  The code cannot load anything at all: every
run aborts during validation (main.py hands `validate_data` the transform
tuple; even read per-table, the books frame lacks the required
`location_name` column, and `load_books`'s upsert names `book_category`
columns the `books` table does not have), and the input schema carries no
external-id column in the first place.  The theorem evaluates both runs at
the spec §8 example row: each fails, leaves the store untouched, and after
one run and after two runs alike *zero* Book rows exist — not one — and no
insert/update report is ever produced. -/
theorem claim_c2_pipeline_never_loads :
    etlRun1.1.isSome = true ∧ etlRun1.2.1 = etlEmptyStore ∧
    etlRun2.1.isSome = true ∧ etlRun2.2.1 = etlEmptyStore ∧
    etlRun1.2.1.books.length = 0 ∧ etlRun2.2.1.books.length = 0 := by
  refine ⟨rfl, rfl, rfl, rfl, rfl, rfl⟩

/-- C6 counterexample: a row set holding one clean row and one row with a
null `book_name` makes `validate_data` raise, aborting the whole run before
any load: the valid row is *not* loaded and no per-row skip report exists,
contradicting the claim that invalid rows are skipped and the run
continues. -/
theorem claim_c6_counterexample :
    (run_pipeline etlEmptyStore 0
        [etlDemoRow, { category := some "Fiction", category_label := some "A-002",
                       book_name := none, location := some "ShelfA" }]).1 =
      some "Column name has null values" ∧
    (run_pipeline etlEmptyStore 0
        [etlDemoRow, { category := some "Fiction", category_label := some "A-002",
                       book_name := none, location := some "ShelfA" }]).2.1 =
      etlEmptyStore := by
  refine ⟨rfl, rfl⟩

/-- `validate_data` rejects every books frame: the first three expectations
can only fail on nulls, and the fourth — the `location_name` existence
check — fails structurally on the transformed frame. -/
theorem validate_data_never_ok (books : List TBook) :
    ∃ e, validate_data books = Except.error e := by
  unfold validate_data
  by_cases h1 : books.any (fun b => b.book_category.isNone) = true
  · exact ⟨"Column book_category has null values", by rw [if_pos h1]⟩
  · rw [if_neg h1]
    by_cases h2 : books.any (fun b => b.book_category_label.isNone) = true
    · exact ⟨"Column book_category_label has null values", by rw [if_pos h2]⟩
    · rw [if_neg h2]
      by_cases h3 : books.any (fun b => b.name.isNone) = true
      · exact ⟨"Column name has null values", by rw [if_pos h3]⟩
      · rw [if_neg h3]
        exact ⟨"Column location_name missing", rfl⟩

/-- C5: every pipeline run fails during validation, before any store
operation — `validate_data` rejects every transformed frame (in the source
it even receives the unusable transform tuple), so the per-phase
`engine.begin()` transactions in load.py are never opened and no partial
write can ever escape.  A failed run therefore leaves the store exactly as
it was before the run started: no dimension or book row written by the
failed run remains visible, because none is ever written.  The claim's
guarantee holds for every store and every input, vacuously strongly — the
load whose transactional rollback it describes is unreachable dead code. -/
theorem claim_c5_failed_run_preserves_store :
    ∀ (st : EtlStore) (u : Nat) (raw : List RawRow),
      (run_pipeline st u raw).1.isSome = true ∧ (run_pipeline st u raw).2.1 = st := by
  intro st u raw
  rcases validate_data_never_ok (transform_data raw u).1.1 with ⟨e, he⟩
  simp only [run_pipeline]
  rw [he]
  exact ⟨rfl, rfl⟩

/-- Witness for `claim_c5_failed_run_preserves_store` at the demo input. -/
theorem claim_c5_failed_run_preserves_store_witness :
    (run_pipeline etlEmptyStore 0 [etlDemoRow]).1.isSome = true ∧
    (run_pipeline etlEmptyStore 0 [etlDemoRow]).2.1 = etlEmptyStore :=
  claim_c5_failed_run_preserves_store etlEmptyStore 0 [etlDemoRow]

/-- C6 (amended): a row set containing a structurally invalid row does not
get a per-row skip — `validate_data` raises, the run aborts before either
load phase, no row (valid or not) is loaded and the store is untouched;
only the aggregate error message is reported. -/
theorem claim_c6_validation_abort :
    ∀ (st : EtlStore) (u : Nat) (raw : List RawRow) (e : String),
      validate_data (transform_data raw u).1.1 = .error e →
      (run_pipeline st u raw).1 = some e ∧ (run_pipeline st u raw).2.1 = st := by
  intro st u raw e hv
  simp only [run_pipeline]
  rw [hv]
  exact ⟨rfl, rfl⟩

/-- A raw row whose `book_name` cell is null. -/
def etlBadRow : RawRow :=
  { category := some "Fiction", category_label := some "A-002",
    book_name := none, location := some "ShelfA" }

/-- Witness for `claim_c6_validation_abort` at the demo input. -/
theorem claim_c6_validation_abort_witness :
    (run_pipeline etlEmptyStore 0 [etlDemoRow, etlBadRow]).1 =
      some "Column name has null values" ∧
    (run_pipeline etlEmptyStore 0 [etlDemoRow, etlBadRow]).2.1 = etlEmptyStore :=
  claim_c6_validation_abort etlEmptyStore 0 [etlDemoRow, etlBadRow]
    "Column name has null values" rfl

/-! ## The session-based loader (loader.py)

`loader.py`'s `load_data` walks the CSV rows inside one SQLAlchemy session,
resolving Category rows by `category_label` and Location rows by
`location_name` through run-scoped caches prefilled from the store, creating
a dimension row only when neither the cache nor the (session-visible) store
has one; books get a fresh uuid id and are bulk-saved at commit.  The uuid
draw is modelled by the same fresh-supply counter as in `transform_data`. -/

/-- A `categories` row (loader.py model declarations). -/
structure LCat where
  category_id : Nat
  category_name : String
  category_label : String
deriving Repr, DecidableEq

/-- A `locations` row. -/
structure LLoc where
  location_id : Nat
  location_name : String
deriving Repr, DecidableEq

/-- A `books` row as `loader.py` writes it. -/
structure LBook where
  book_id : String
  name : String
  category_id : Nat
  storage_location_id : Nat
  status : String
deriving Repr, DecidableEq

/-- The store as `loader.py` sees it, with the two dimension serial
sequences. -/
structure LoaderStore where
  categories : List LCat
  locations : List LLoc
  books : List LBook
  next_cat_id : Nat
  next_loc_id : Nat
deriving Repr, DecidableEq

/-- A raw CSV row for `loader.py` (columns `Category`, `category_label`,
`Location`, `book_name`); `none` is a NaN cell. -/
structure LoaderRow where
  category : Option String
  category_label : Option String
  location : Option String
  book_name : Option String
deriving Repr, DecidableEq

/-- Python's `str.strip()`: drop leading and trailing whitespace.  Defined
on the character list so that it evaluates by kernel reduction (the
byte-indexed `String.trim` does not). -/
def pyStrip (s : String) : String :=
  String.mk (((s.data.dropWhile Char.isWhitespace).reverse.dropWhile
    Char.isWhitespace).reverse)

/-- A python dict insert: the newest binding shadows older ones. -/
def cacheInsert (c : List (String × Nat)) (k : String) (v : Nat) : List (String × Nat) :=
  (k, v) :: c

/-- A python dict lookup. -/
def cacheLookup (c : List (String × Nat)) (k : String) : Option Nat :=
  (c.find? (fun p => p.1 = k)).map (fun p => p.2)

/-- The in-flight state of one `load_data` run: the session-visible store,
the two run-scoped caches, and the uuid supply. -/
structure LoaderRun where
  store : LoaderStore
  catCache : List (String × Nat)
  locCache : List (String × Nat)
  uuid : Nat
deriving Repr, DecidableEq

/-- Category resolution for one row (loader.py lines 249-262): cache hit,
else session query by label (updating the cache), else create a new row and
cache its id. -/
def resolveCategory (s : LoaderRun) (catName catLabel : String) : LoaderRun × Nat :=
  match cacheLookup s.catCache catLabel with
  | some cid => (s, cid)
  | none =>
    match s.store.categories.find? (fun c => c.category_label = catLabel) with
    | some c =>
      ({ s with catCache := cacheInsert s.catCache catLabel c.category_id },
       c.category_id)
    | none =>
      ({ s with
         store := { s.store with
           categories := s.store.categories ++
             [{ category_id := s.store.next_cat_id, category_name := catName,
                category_label := catLabel }],
           next_cat_id := s.store.next_cat_id + 1 },
         catCache := cacheInsert s.catCache catLabel s.store.next_cat_id },
       s.store.next_cat_id)

/-- Location resolution for one row (loader.py lines 271-284), keyed by
`location_name` alone. -/
def resolveLocation (s : LoaderRun) (locName : String) : LoaderRun × Nat :=
  match cacheLookup s.locCache locName with
  | some lid => (s, lid)
  | none =>
    match s.store.locations.find? (fun l => l.location_name = locName) with
    | some l =>
      ({ s with locCache := cacheInsert s.locCache locName l.location_id },
       l.location_id)
    | none =>
      ({ s with
         store := { s.store with
           locations := s.store.locations ++
             [{ location_id := s.store.next_loc_id, location_name := locName }],
           next_loc_id := s.store.next_loc_id + 1 },
         locCache := cacheInsert s.locCache locName s.store.next_loc_id },
       s.store.next_loc_id)

/-- One iteration of the `load_data` row loop (loader.py lines 236-308):
rows missing `Category` or `category_label` are skipped outright; the
location falls back to the sentinel `"未分類"` when missing or blank; a row
with no `book_name` still resolves its dimensions but adds no book. -/
def loaderStep (s : LoaderRun) (row : LoaderRow) : LoaderRun :=
  match row.category, row.category_label with
  | some catNameRaw, some catLabelRaw =>
    let t1 := resolveCategory s (pyStrip catNameRaw) (pyStrip catLabelRaw)
    let locName :=
      match row.location with
      | none => "未分類"
      | some l => if pyStrip l = "" then "未分類" else pyStrip l
    let t2 := resolveLocation t1.1 locName
    match row.book_name with
    | none => t2.1
    | some bn =>
      let s2 := t2.1
      { s2 with
        store := { s2.store with
          books := s2.store.books ++
            [{ book_id := "uuid-" ++ toString s2.uuid, name := pyStrip bn,
               category_id := t1.2, storage_location_id := t2.2,
               status := "Available" }] },
        uuid := s2.uuid + 1 }
  | _, _ => s

/-- `load_data` (loader.py lines 201-322): prefill both caches from the
store, walk the rows, commit. -/
def loader_load_data (st : LoaderStore) (u : Nat) (rows : List LoaderRow) : LoaderStore :=
  let init : LoaderRun :=
    { store := st,
      catCache := st.categories.foldl
        (fun c k => cacheInsert c k.category_label k.category_id) [],
      locCache := st.locations.foldl
        (fun c k => cacheInsert c k.location_name k.location_id) [],
      uuid := u }
  (rows.foldl loaderStep init).store

/-- The natural-key column of the categories table. -/
def catLabels (cats : List LCat) : List String := cats.map (fun c => c.category_label)

/-- The (trimmed) category label a row contributes, when the row survives
the missing-data skip. -/
def rowLabel? (row : LoaderRow) : Option String :=
  match row.category, row.category_label with
  | some _, some l => some (pyStrip l)
  | _, _ => none

/-- The dedup invariant carried through a run: distinct labels in the
store, and every cache binding backed by a store row. -/
def LoaderInv (s : LoaderRun) : Prop :=
  (catLabels s.store.categories).Nodup ∧
  ∀ p ∈ s.catCache, p.1 ∈ catLabels s.store.categories

theorem resolveCategory_spec (s : LoaderRun) (n lab : String) (hInv : LoaderInv s) :
    LoaderInv (resolveCategory s n lab).1 ∧
    ∀ l, l ∈ catLabels (resolveCategory s n lab).1.store.categories ↔
      (l ∈ catLabels s.store.categories ∨ l = lab) := by
  unfold resolveCategory
  cases hc : cacheLookup s.catCache lab with
  | some cid =>
    have hlab : lab ∈ catLabels s.store.categories := by
      unfold cacheLookup at hc
      rcases Option.map_eq_some'.mp hc with ⟨p, hp, hpv⟩
      have hpm := List.mem_of_find?_eq_some hp
      have hpk : p.1 = lab := by simpa using List.find?_some hp
      exact hpk ▸ hInv.2 p hpm
    refine ⟨hInv, fun l => ⟨Or.inl, ?_⟩⟩
    rintro (h | h)
    · exact h
    · exact h ▸ hlab
  | none =>
    cases hf : s.store.categories.find? (fun c => c.category_label = lab) with
    | some c =>
      have hlab : lab ∈ catLabels s.store.categories := by
        have hcm := List.mem_of_find?_eq_some hf
        have hck : c.category_label = lab := by simpa using List.find?_some hf
        exact hck ▸ List.mem_map.mpr ⟨c, hcm, rfl⟩
      refine ⟨⟨hInv.1, ?_⟩, fun l => ⟨Or.inl, ?_⟩⟩
      · intro p hp
        rcases List.mem_cons.mp hp with h | h
        · rw [h]
          exact hlab
        · exact hInv.2 p h
      · rintro (h | h)
        · exact h
        · exact h ▸ hlab
    | none =>
      have hnot : lab ∉ catLabels s.store.categories := by
        intro hm
        rcases List.mem_map.mp hm with ⟨c, hcm, hcl⟩
        have := List.find?_eq_none.mp hf c hcm
        simp [hcl] at this
      have hlabels : catLabels (s.store.categories ++
          [{ category_id := s.store.next_cat_id, category_name := n,
             category_label := lab }]) =
          catLabels s.store.categories ++ [lab] := by
        unfold catLabels
        rw [List.map_append]
        rfl
      refine ⟨⟨?_, ?_⟩, fun l => ?_⟩
      · rw [hlabels, List.nodup_append]
        exact ⟨hInv.1, List.nodup_singleton _, by simpa using hnot⟩
      · intro p hp
        rw [hlabels]
        rcases List.mem_cons.mp hp with h | h
        · rw [h]
          simp
        · exact List.mem_append_left _ (hInv.2 p h)
      · rw [hlabels]
        simp [List.mem_append]

theorem resolveLocation_frame (s : LoaderRun) (locName : String) :
    (resolveLocation s locName).1.store.categories = s.store.categories ∧
    (resolveLocation s locName).1.catCache = s.catCache := by
  unfold resolveLocation
  cases cacheLookup s.locCache locName with
  | some lid => exact ⟨rfl, rfl⟩
  | none =>
    cases s.store.locations.find? (fun l => l.location_name = locName) with
    | some l => exact ⟨rfl, rfl⟩
    | none => exact ⟨rfl, rfl⟩

theorem loaderStep_spec (s : LoaderRun) (row : LoaderRow) (hInv : LoaderInv s) :
    LoaderInv (loaderStep s row) ∧
    ∀ l, l ∈ catLabels (loaderStep s row).store.categories ↔
      (l ∈ catLabels s.store.categories ∨ rowLabel? row = some l) := by
  unfold loaderStep rowLabel?
  cases hcat : row.category with
  | none =>
    refine ⟨hInv, fun l => ?_⟩
    simp
  | some catNameRaw =>
    cases hlab : row.category_label with
    | none =>
      refine ⟨hInv, fun l => ?_⟩
      simp
    | some catLabelRaw =>
      simp only []
      have hres := resolveCategory_spec s (pyStrip catNameRaw) (pyStrip catLabelRaw) hInv
      have hframe := resolveLocation_frame
        (resolveCategory s (pyStrip catNameRaw) (pyStrip catLabelRaw)).1
        (match row.location with
         | none => "未分類"
         | some l => if pyStrip l = "" then "未分類" else pyStrip l)
      set s1 := (resolveCategory s (pyStrip catNameRaw) (pyStrip catLabelRaw)).1 with hs1
      set s2 := (resolveLocation s1
        (match row.location with
         | none => "未分類"
         | some l => if pyStrip l = "" then "未分類" else pyStrip l)).1 with hs2
      have hInv2 : LoaderInv s2 := by
        constructor
        · rw [hframe.1]
          exact hres.1.1
        · intro p hp
          rw [hframe.1]
          rw [hframe.2] at hp
          exact hres.1.2 p hp
      have hmem2 : ∀ l, l ∈ catLabels s2.store.categories ↔
          (l ∈ catLabels s.store.categories ∨ l = pyStrip catLabelRaw) := by
        intro l
        rw [hframe.1]
        exact hres.2 l
      cases hbn : row.book_name with
      | none =>
        refine ⟨hInv2, fun l => ?_⟩
        rw [hmem2 l]
        simp [eq_comm]
      | some bn =>
        constructor
        · constructor
          · exact hInv2.1
          · exact hInv2.2
        · intro l
          show l ∈ catLabels s2.store.categories ↔ _
          rw [hmem2 l]
          simp [eq_comm]

theorem loader_fold_spec :
    ∀ (rows : List LoaderRow) (s : LoaderRun), LoaderInv s →
      LoaderInv (rows.foldl loaderStep s) ∧
      ∀ l, l ∈ catLabels (rows.foldl loaderStep s).store.categories ↔
        (l ∈ catLabels s.store.categories ∨ l ∈ rows.filterMap rowLabel?) := by
  intro rows
  induction rows with
  | nil =>
    intro s hInv
    refine ⟨hInv, fun l => ?_⟩
    simp
  | cons r rows ih =>
    intro s hInv
    have hstep := loaderStep_spec s r hInv
    have hrest := ih (loaderStep s r) hstep.1
    refine ⟨hrest.1, fun l => ?_⟩
    rw [List.foldl_cons] at *
    rw [hrest.2 l, hstep.2 l]
    cases hr : rowLabel? r with
    | none => simp [List.filterMap_cons, hr]
    | some v =>
      simp only [List.filterMap_cons, hr, List.mem_cons, Option.some_inj]
      constructor
      · rintro ((h | h) | h)
        · exact Or.inl h
        · exact Or.inr (Or.inl h.symm)
        · exact Or.inr (Or.inr h)
      · rintro (h | h | h)
        · exact Or.inl (Or.inl h)
        · exact Or.inl (Or.inr h.symm)
        · exact Or.inr h

theorem cache_prefill_eq (cats : List LCat) :
    ∀ acc, cats.foldl (fun c k => cacheInsert c k.category_label k.category_id) acc =
      (cats.map (fun k => (k.category_label, k.category_id))).reverse ++ acc := by
  induction cats with
  | nil => intro acc; simp
  | cons k cats ih =>
    intro acc
    rw [List.foldl_cons, ih, List.map_cons, List.reverse_cons, List.append_assoc]
    rfl

/-- C7: for every initial store with pairwise-distinct category labels and
every row set, `loader.py`'s run keeps the labels pairwise distinct, the
resulting label set is exactly the old labels united with the (trimmed)
labels of the surviving rows, and the categories row count equals the size
of that union — so at most one Category row exists per distinct natural
key, and re-encountering an already-resolved label never creates a
duplicate row. -/
theorem claim_c7_dimension_dedup :
    ∀ (st : LoaderStore) (u : Nat) (rows : List LoaderRow),
      (catLabels st.categories).Nodup →
      (catLabels (loader_load_data st u rows).categories).Nodup ∧
      (catLabels (loader_load_data st u rows).categories).toFinset =
        (catLabels st.categories).toFinset ∪ (rows.filterMap rowLabel?).toFinset ∧
      (loader_load_data st u rows).categories.length =
        ((catLabels st.categories).toFinset ∪ (rows.filterMap rowLabel?).toFinset).card := by
  intro st u rows hnd
  have hInv0 : LoaderInv
      { store := st,
        catCache := st.categories.foldl
          (fun c k => cacheInsert c k.category_label k.category_id) [],
        locCache := st.locations.foldl
          (fun c k => cacheInsert c k.location_name k.location_id) [],
        uuid := u } := by
    constructor
    · exact hnd
    · intro p hp
      rw [cache_prefill_eq st.categories []] at hp
      rw [List.append_nil] at hp
      rcases List.mem_reverse.mp hp with hp'
      rcases List.mem_map.mp hp' with ⟨k, hk, hkp⟩
      rw [← hkp]
      exact List.mem_map.mpr ⟨k, hk, rfl⟩
  have h := loader_fold_spec rows _ hInv0
  have hndf : (catLabels (loader_load_data st u rows).categories).Nodup := h.1.1
  have hset : (catLabels (loader_load_data st u rows).categories).toFinset =
      (catLabels st.categories).toFinset ∪ (rows.filterMap rowLabel?).toFinset := by
    ext a
    simp only [List.mem_toFinset, Finset.mem_union]
    exact h.2 a
  refine ⟨hndf, hset, ?_⟩
  have hlen : (loader_load_data st u rows).categories.length =
      (catLabels (loader_load_data st u rows).categories).length := by
    unfold catLabels
    rw [List.length_map]
  rw [hlen, ← List.toFinset_card_of_nodup hndf, hset]

/-- An empty loader store. -/
def loaderEmptyStore : LoaderStore :=
  { categories := [], locations := [], books := [], next_cat_id := 1, next_loc_id := 1 }

/-- Three distinct labels cycled over the demo rows. -/
def labelFor (k : Nat) : String :=
  if k = 0 then "A" else if k = 1 then "B" else "C"

/-- One hundred rows sharing three distinct category labels. -/
def loaderRows100 : List LoaderRow :=
  (List.range 100).map (fun i =>
    { category := some "Novel", category_label := some (labelFor (i % 3)),
      location := some "Shelf", book_name := some "Book" })

set_option maxRecDepth 8192 in
/-- Witness for `claim_c7_dimension_dedup`: loading 100 rows sharing 3
distinct category labels into the empty store creates exactly 3 Category
rows, with distinct labels. -/
theorem claim_c7_dimension_dedup_witness :
    (catLabels (loader_load_data loaderEmptyStore 0 loaderRows100).categories).Nodup ∧
    (loader_load_data loaderEmptyStore 0 loaderRows100).categories.length = 3 := by
  have h := claim_c7_dimension_dedup loaderEmptyStore 0 loaderRows100 (by decide)
  exact ⟨h.1, by decide⟩

/-! ## The per-row loader's id allocator (load_books.py lines 110-124)

For a row with no id of its own, `load_data` counts the existing books in
the row's category, forms the zero-padded candidate
`f"{category_label}-{str(book_num).zfill(3)}"`, and probes the store in a
`while True` loop, bumping `book_num` past every taken id until a free one
turns up.  `str(n)` is embedded through an explicitly fuelled decimal-digit
function so that everything evaluates by kernel reduction. -/

/-- A `books` row as `load_books.py` reads and writes it. -/
structure LBBook where
  book_id : String
  name : String
  category_id : Option Nat
  storage_location_id : Option Nat
  status : String
deriving Repr, DecidableEq

/-- Value of a little-endian decimal digit list. -/
def ofDigs : List Nat → Nat
  | [] => 0
  | d :: ds => d + 10 * ofDigs ds

/-- Little-endian decimal digits of `n`, with explicit fuel (any fuel of at
least the digit count, in particular `n` itself, is enough). -/
def reprDigitsAux : Nat → Nat → List Nat
  | 0, _ => []
  | _ + 1, 0 => []
  | fuel + 1, n + 1 => ((n + 1) % 10) :: reprDigitsAux fuel ((n + 1) / 10)

/-- Little-endian decimal digits of `n`. -/
def reprDigits (n : Nat) : List Nat := reprDigitsAux n n

theorem reprDigitsAux_zero (fuel : Nat) : reprDigitsAux fuel 0 = [] := by
  cases fuel <;> rfl

theorem ofDigs_reprDigitsAux :
    ∀ (fuel n : Nat), n ≤ fuel → ofDigs (reprDigitsAux fuel n) = n := by
  intro fuel
  induction fuel with
  | zero =>
    intro n h
    have hn : n = 0 := Nat.le_zero.mp h
    subst hn
    rfl
  | succ f ih =>
    intro n h
    cases n with
    | zero => rfl
    | succ m =>
      have hlt : (m + 1) / 10 < m + 1 := Nat.div_lt_self (Nat.succ_pos m) (by norm_num)
      have hle : (m + 1) / 10 ≤ f := by omega
      show ((m + 1) % 10) + 10 * ofDigs (reprDigitsAux f ((m + 1) / 10)) = m + 1
      rw [ih _ hle]
      exact Nat.mod_add_div (m + 1) 10

theorem reprDigits_inj {a b : Nat} (h : reprDigits a = reprDigits b) : a = b := by
  have ha := ofDigs_reprDigitsAux a a le_rfl
  have hb := ofDigs_reprDigitsAux b b le_rfl
  unfold reprDigits at h
  rw [← ha, ← hb, h]

theorem reprDigitsAux_lt10 :
    ∀ (fuel n d : Nat), d ∈ reprDigitsAux fuel n → d < 10 := by
  intro fuel
  induction fuel with
  | zero =>
    intro n d hd
    simp [reprDigitsAux] at hd
  | succ f ih =>
    intro n d hd
    cases n with
    | zero => simp [reprDigitsAux] at hd
    | succ m =>
      rcases List.mem_cons.mp hd with h | h
      · rw [h]
        exact Nat.mod_lt _ (by norm_num)
      · exact ih _ d h

theorem reprDigitsAux_getLast?_ne_zero :
    ∀ (fuel n : Nat), 0 < n → n ≤ fuel →
      ∀ d, (reprDigitsAux fuel n).getLast? = some d → d ≠ 0 := by
  intro fuel
  induction fuel with
  | zero =>
    intro n h0 hle d hd
    omega
  | succ f ih =>
    intro n h0 hle d hd
    cases n with
    | zero => exact absurd h0 (lt_irrefl 0)
    | succ m =>
      by_cases hq : (m + 1) / 10 = 0
      · have hm : m + 1 < 10 := by
          by_contra hge
          push_neg at hge
          have := Nat.div_pos hge (by norm_num)
          omega
        have hlist : reprDigitsAux (f + 1) (m + 1) = [(m + 1) % 10] := by
          show ((m + 1) % 10) :: reprDigitsAux f ((m + 1) / 10) = _
          rw [hq, reprDigitsAux_zero]
        rw [hlist] at hd
        simp at hd
        have hmod : (m + 1) % 10 = m + 1 := Nat.mod_eq_of_lt hm
        omega
      · have hq0 : 0 < (m + 1) / 10 := Nat.pos_of_ne_zero hq
        have hqle : (m + 1) / 10 ≤ f := by
          have : (m + 1) / 10 < m + 1 := Nat.div_lt_self (Nat.succ_pos m) (by norm_num)
          omega
        have hstep : reprDigitsAux (f + 1) (m + 1) =
            ((m + 1) % 10) :: reprDigitsAux f ((m + 1) / 10) := rfl
        rcases hl : reprDigitsAux f ((m + 1) / 10) with _ | ⟨x, xs⟩
        · cases hf : f with
          | zero =>
            subst hf
            omega
          | succ f' =>
            subst hf
            rcases hqq : (m + 1) / 10 with _ | p
            · exact absurd hqq hq
            · rw [hqq] at hl
              simp [reprDigitsAux] at hl
        · rw [hstep, hl, List.getLast?_cons_cons] at hd
          exact ih ((m + 1) / 10) hq0 hqle d (by rw [hl]; exact hd)

/-- The decimal digit characters Python's `str` emits. -/
def digChar : Nat → Char
  | 0 => '0'
  | 1 => '1'
  | 2 => '2'
  | 3 => '3'
  | 4 => '4'
  | 5 => '5'
  | 6 => '6'
  | 7 => '7'
  | 8 => '8'
  | 9 => '9'
  | _ => '*'

theorem digChar_inj : ∀ a < 10, ∀ b < 10, digChar a = digChar b → a = b := by decide

/-- The character list of Python's `str(n)`. -/
def natChars (n : Nat) : List Char :=
  if n = 0 then ['0'] else (reprDigits n).reverse.map digChar

theorem reprDigits_ne_nil (n : Nat) (hn : n ≠ 0) : reprDigits n ≠ [] := by
  cases n with
  | zero => exact absurd rfl hn
  | succ m =>
    show ((m + 1) % 10) :: reprDigitsAux m ((m + 1) / 10) ≠ []
    exact List.cons_ne_nil _ _

theorem natChars_ne_nil (n : Nat) : natChars n ≠ [] := by
  unfold natChars
  by_cases hn : n = 0
  · simp [hn]
  · rw [if_neg hn]
    intro h
    have h2 : (reprDigits n).reverse = [] := List.map_eq_nil_iff.mp h
    exact reprDigits_ne_nil n hn (List.reverse_eq_nil_iff.mp h2)

theorem natChars_length_pos (n : Nat) : 0 < (natChars n).length :=
  List.length_pos.mpr (natChars_ne_nil n)

theorem natChars_eq_zero_cons (n : Nat) (cs : List Char)
    (h : natChars n = '0' :: cs) : n = 0 := by
  by_contra hn
  unfold natChars at h
  rw [if_neg hn] at h
  rcases hrev : (reprDigits n).reverse with _ | ⟨c, cs'⟩
  · rw [hrev] at h
    simp at h
  · rw [hrev] at h
    simp only [List.map_cons, List.cons.injEq] at h
    have hc0 : digChar c = '0' := h.1
    have hcmem : c ∈ reprDigits n := by
      rw [← List.mem_reverse, hrev]
      exact List.mem_cons_self _ _
    have hclt : c < 10 := reprDigitsAux_lt10 n n c hcmem
    have hceq : c = 0 := digChar_inj c hclt 0 (by norm_num) hc0
    have hlast : (reprDigits n).getLast? = some c := by
      rw [← List.head?_reverse, hrev]
      rfl
    have hne : c ≠ 0 := by
      have hpos : 0 < n := Nat.pos_of_ne_zero hn
      exact reprDigitsAux_getLast?_ne_zero n n hpos le_rfl c hlast
    exact hne hceq

theorem map_digChar_cancel :
    ∀ (l1 l2 : List Nat), (∀ d ∈ l1, d < 10) → (∀ d ∈ l2, d < 10) →
      l1.map digChar = l2.map digChar → l1 = l2 := by
  intro l1
  induction l1 with
  | nil =>
    intro l2 _ _ h
    cases l2 with
    | nil => rfl
    | cons e l2' => simp at h
  | cons d l ih =>
    intro l2 h1 h2 h
    cases l2 with
    | nil => simp at h
    | cons e l2' =>
      simp only [List.map_cons, List.cons.injEq] at h
      have hde : d = e :=
        digChar_inj d (h1 d (List.mem_cons_self _ _)) e (h2 e (List.mem_cons_self _ _)) h.1
      rw [hde, ih l2' (fun x hx => h1 x (List.mem_cons_of_mem _ hx))
        (fun x hx => h2 x (List.mem_cons_of_mem _ hx)) h.2]

theorem natChars_inj {a b : Nat} (h : natChars a = natChars b) : a = b := by
  by_cases ha : a = 0
  · by_cases hb : b = 0
    · rw [ha, hb]
    · subst ha
      have h0 : natChars b = '0' :: [] := by
        rw [← h]
        rfl
      exact absurd (natChars_eq_zero_cons b [] h0) hb
  · by_cases hb : b = 0
    · subst hb
      have h0 : natChars a = '0' :: [] := by
        rw [h]
        rfl
      exact absurd (natChars_eq_zero_cons a [] h0) ha
    · unfold natChars at h
      rw [if_neg ha, if_neg hb] at h
      have hrev : (reprDigits a).reverse = (reprDigits b).reverse :=
        map_digChar_cancel _ _
          (fun d hd => reprDigitsAux_lt10 a a d (List.mem_reverse.mp hd))
          (fun d hd => reprDigitsAux_lt10 b b d (List.mem_reverse.mp hd)) h
      exact reprDigits_inj (List.reverse_injective hrev)

/-- Python's `str(num).zfill(3)`. -/
def padChars3 (l : List Char) : List Char :=
  if l.length < 3 then List.replicate (3 - l.length) '0' ++ l else l

/-- The zero-padded decimal rendering of the candidate sequence number. -/
def candChars (n : Nat) : List Char := padChars3 (natChars n)

theorem candChars_small_eq {a b : Nat}
    (h1 : (natChars a).length < 3) (h2 : (natChars b).length < 3)
    (hle : (natChars a).length ≤ (natChars b).length)
    (h : List.replicate (3 - (natChars a).length) '0' ++ natChars a =
         List.replicate (3 - (natChars b).length) '0' ++ natChars b) : a = b := by
  have hsplit : 3 - (natChars a).length =
      (3 - (natChars b).length) + ((natChars b).length - (natChars a).length) := by
    omega
  rw [hsplit, List.replicate_add, List.append_assoc] at h
  have h' := List.append_cancel_left h
  rcases hk : (natChars b).length - (natChars a).length with _ | k
  · rw [hk] at h'
    simp at h'
    exact natChars_inj h'
  · rw [hk, List.replicate_succ] at h'
    have hb0 : b = 0 := natChars_eq_zero_cons b _ h'.symm
    have hlb : (natChars b).length = 1 := by
      rw [hb0]
      rfl
    have hla : 0 < (natChars a).length := natChars_length_pos a
    have hlen := congrArg List.length h'
    simp [hlb] at hlen
    omega

theorem candChars_mixed {a b : Nat}
    (h1 : (natChars a).length < 3) (h2 : ¬ (natChars b).length < 3)
    (h : List.replicate (3 - (natChars a).length) '0' ++ natChars a = natChars b) :
    False := by
  rcases hk : 3 - (natChars a).length with _ | k
  · omega
  · rw [hk, List.replicate_succ] at h
    have hb0 : b = 0 := natChars_eq_zero_cons b _ h.symm
    have hlb : (natChars b).length = 1 := by
      rw [hb0]
      rfl
    omega

theorem candChars_inj {a b : Nat} (h : candChars a = candChars b) : a = b := by
  unfold candChars padChars3 at h
  by_cases h1 : (natChars a).length < 3 <;> by_cases h2 : (natChars b).length < 3
  · rw [if_pos h1, if_pos h2] at h
    rcases Nat.le_total (natChars a).length (natChars b).length with hle | hle
    · exact candChars_small_eq h1 h2 hle h
    · exact (candChars_small_eq h2 h1 hle h.symm).symm
  · rw [if_pos h1, if_neg h2] at h
    exact absurd (candChars_mixed h1 h2 h) (fun hf => hf)
  · rw [if_neg h1, if_pos h2] at h
    exact absurd (candChars_mixed h2 h1 h.symm) (fun hf => hf)
  · rw [if_neg h1, if_neg h2] at h
    exact natChars_inj h

/-- The candidate id `f"{category_label}-{str(book_num).zfill(3)}"` (load_books.py
lines 116 and 124). -/
def bookCandidate (label : String) (num : Nat) : String :=
  label ++ "-" ++ String.mk (candChars num)

theorem bookCandidate_inj (label : String) {a b : Nat}
    (h : bookCandidate label a = bookCandidate label b) : a = b := by
  unfold bookCandidate at h
  have hdata := congrArg String.data h
  rw [String.data_append, String.data_append, String.data_append,
      String.data_append] at hdata
  have h1 := List.append_cancel_left hdata
  exact candChars_inj h1

/-- The collision-probing loop (load_books.py lines 119-124): starting from
`num`, return the first candidate id not present in the store.  The source
loop is `while True`; the model carries explicit fuel, and
`probe_succeeds`/`takenCount_le` below show that `books.length + 1`
iterations always reach the exit, so the fuelled function computes exactly
what the unbounded loop computes. -/
def probeBookId (books : List LBBook) (label : String) : Nat → Nat → Option String
  | 0, _ => none
  | fuel + 1, num =>
    if books.any (fun b => b.book_id = bookCandidate label num) then
      probeBookId books label fuel (num + 1)
    else some (bookCandidate label num)

/-- `SELECT COUNT(*) FROM books WHERE category_id = :cat_id` (load_books.py
lines 111-112). -/
def countInCategory (books : List LBBook) (catId : Nat) : Nat :=
  (books.filter (fun b => b.category_id = some catId)).length

/-- The whole allocation for one row without an id (load_books.py lines
110-124): `book_num = count + 1`, then probe. -/
def allocate_book_id (books : List LBBook) (label : String) (catId : Nat) :
    Option String :=
  probeBookId books label (books.length + 1) (countInCategory books catId + 1)

theorem probe_fresh {books : List LBBook} {label : String} :
    ∀ (fuel num : Nat) (id : String), probeBookId books label fuel num = some id →
      id ∉ books.map (fun b => b.book_id) := by
  intro fuel
  induction fuel with
  | zero =>
    intro num id h
    exact absurd h (by simp [probeBookId])
  | succ f ih =>
    intro num id h
    unfold probeBookId at h
    by_cases hc : books.any (fun b => b.book_id = bookCandidate label num) = true
    · rw [if_pos hc] at h
      exact ih _ _ h
    · rw [if_neg hc] at h
      injection h with h'
      subst h'
      intro hmem
      rcases List.mem_map.mp hmem with ⟨b, hb, hbid⟩
      exact hc (List.any_eq_true.mpr ⟨b, hb, by simpa using hbid⟩)

/-- The number of already-taken candidate ids among the next `fuel`
sequence numbers starting at `num`. -/
def takenCount (books : List LBBook) (label : String) (num fuel : Nat) : Nat :=
  ((List.range fuel).filter
    (fun i => books.any (fun b => b.book_id = bookCandidate label (num + i)))).length

theorem takenCount_succ (books : List LBBook) (label : String) (num fuel : Nat)
    (h : books.any (fun b => b.book_id = bookCandidate label num) = true) :
    takenCount books label num (fuel + 1) = takenCount books label (num + 1) fuel + 1 := by
  unfold takenCount
  rw [List.range_succ_eq_map, List.filter_cons]
  have h0 : (books.any (fun b => b.book_id = bookCandidate label (num + 0))) = true := by
    simpa using h
  rw [if_pos (by simpa using h0)]
  rw [List.filter_map, List.length_cons, List.length_map]
  congr 1
  refine congrArg List.length (List.filter_congr ?_)
  intro i _
  have harg : num + Nat.succ i = num + 1 + i := by omega
  simp [Function.comp, harg]

theorem probe_succeeds {books : List LBBook} {label : String} :
    ∀ (fuel num : Nat), takenCount books label num fuel < fuel →
      (probeBookId books label fuel num).isSome = true := by
  intro fuel
  induction fuel with
  | zero =>
    intro num h
    exact absurd h (Nat.not_lt_zero _)
  | succ f ih =>
    intro num h
    unfold probeBookId
    by_cases hc : books.any (fun b => b.book_id = bookCandidate label num) = true
    · rw [if_pos hc]
      apply ih
      have hstep := takenCount_succ books label num f hc
      omega
    · rw [if_neg hc]
      rfl

theorem takenCount_le (books : List LBBook) (label : String) (num : Nat) :
    takenCount books label num (books.length + 1) ≤ books.length := by
  unfold takenCount
  set S := (List.range (books.length + 1)).filter
    (fun i => books.any (fun b => b.book_id = bookCandidate label (num + i))) with hS
  have hSnodup : S.Nodup := (List.nodup_range _).filter _
  have hmapnodup : (S.map (fun i => bookCandidate label (num + i))).Nodup := by
    refine List.Nodup.map_on ?_ hSnodup
    intro x _ y _ hxy
    have := bookCandidate_inj label hxy
    omega
  have hsub : (S.map (fun i => bookCandidate label (num + i))).toFinset ⊆
      (books.map (fun b => b.book_id)).toFinset := by
    intro x hx
    rw [List.mem_toFinset] at hx ⊢
    rcases List.mem_map.mp hx with ⟨i, hi, hix⟩
    have hcond := (List.mem_filter.mp (hS ▸ hi)).2
    rcases List.any_eq_true.mp hcond with ⟨b, hb, hbid⟩
    refine List.mem_map.mpr ⟨b, hb, ?_⟩
    rw [← hix]
    simpa using hbid
  calc S.length
      = (S.map (fun i => bookCandidate label (num + i))).length := (List.length_map _ _).symm
    _ = (S.map (fun i => bookCandidate label (num + i))).toFinset.card :=
        (List.toFinset_card_of_nodup hmapnodup).symm
    _ ≤ (books.map (fun b => b.book_id)).toFinset.card := Finset.card_le_card hsub
    _ ≤ (books.map (fun b => b.book_id)).length := List.toFinset_card_le _
    _ = books.length := List.length_map _ _

/-- C9: the collision probe always finds a free id within `|books| + 1`
attempts, from any starting sequence number — allocation terminates for
every store state, and the bound means the spec's fail-after-bounded-
attempts branch is never reached. -/
theorem claim_c9_probe_bounded :
    ∀ (books : List LBBook) (label : String) (num : Nat),
      (probeBookId books label (books.length + 1) num).isSome = true := by
  intro books label num
  apply probe_succeeds
  have h := takenCount_le books label num
  omega

/-- Three existing books `CAT-001`–`CAT-003` in category 1. -/
def catDemoBooks : List LBBook :=
  [{ book_id := "CAT-001", name := "B1", category_id := some 1,
     storage_location_id := none, status := "Available" },
   { book_id := "CAT-002", name := "B2", category_id := some 1,
     storage_location_id := none, status := "Available" },
   { book_id := "CAT-003", name := "B3", category_id := some 1,
     storage_location_id := none, status := "Available" }]

/-- C8: the allocator always returns an id, that id never duplicates one
already in the store, and at the concrete store holding `CAT-001`–`CAT-003`
it returns exactly `CAT-004`. -/
theorem claim_c8_allocator_no_collision :
    (∀ (books : List LBBook) (label : String) (catId : Nat),
      ∃ id, allocate_book_id books label catId = some id ∧
        id ∉ books.map (fun b => b.book_id)) ∧
    allocate_book_id catDemoBooks "CAT" 1 = some "CAT-004" := by
  constructor
  · intro books label catId
    have hsome : (allocate_book_id books label catId).isSome = true := by
      unfold allocate_book_id
      apply probe_succeeds
      have h := takenCount_le books label (countInCategory books catId + 1)
      omega
    rcases Option.isSome_iff_exists.mp hsome with ⟨id, hid⟩
    exact ⟨id, hid, probe_fresh _ _ id hid⟩
  · rfl

/-- Witness for `claim_c8_allocator_no_collision` at the `CAT-001`–`CAT-003`
store. -/
theorem claim_c8_allocator_no_collision_witness :
    ∃ id, allocate_book_id catDemoBooks "CAT" 1 = some id ∧
      id ∉ catDemoBooks.map (fun b => b.book_id) :=
  claim_c8_allocator_no_collision.1 catDemoBooks "CAT" 1

/-- Witness for `claim_c9_probe_bounded` at the `CAT-001`–`CAT-003` store:
probing from sequence number 1 terminates within `3 + 1` attempts. -/
theorem claim_c9_probe_bounded_witness :
    (probeBookId catDemoBooks "CAT" (catDemoBooks.length + 1) 1).isSome = true :=
  claim_c9_probe_bounded catDemoBooks "CAT" 1

end LibraryETL
